import Mathlib

/-!
Verification of the booking/availability core of the parking-marketplace
backend.  The definitions below are a shallow embedding of the JavaScript
source: models (src/models/booking.js, src/models/spotAvailability.js,
src/models/transaction.js) and controllers (src/controllers/booking.js,
src/controllers/spotAvailability.js, src/controllers/paymentController.js,
src/controllers/transaction.js).  MySQL DATETIME values are modelled as
natural numbers (a total order is all the queries use); each endpoint is a
function from a database state and its request arguments to an HTTP status
code and the successor database state.
-/

namespace Parking

/-- booking_status enum of the bookings table, as used throughout the code. -/
inductive BookingStatus
  | pending
  | confirmed
  | rejected
  | cancelledByDriver
  | cancelledByHomeowner
  | checkedIn
  | checkedOut
  | completed
deriving DecidableEq, Repr

/-- payment_status enum of the bookings table. -/
inductive PaymentStatus
  | pending
  | paid
  | refunded
  | failed
deriving DecidableEq, Repr

/-- status enum of the parking_spots table. -/
inductive SpotStatus
  | pendingVerification
  | active
  | inactive
  | rejected
deriving DecidableEq, Repr

/-- user_type of the authenticated user (req.user.user_type). -/
inductive UserType
  | driver
  | homeowner
  | admin
deriving DecidableEq, Repr

/-- type enum of the transactions table. -/
inductive TxType
  | bookingPayment
  | payout
  | refund
  | platformFee
deriving DecidableEq, Repr

/-- status enum of the transactions table. -/
inductive TxStatus
  | pending
  | completed
  | failed
  | refunded
deriving DecidableEq, Repr

/-- A row of the bookings table, with the columns the code reads and writes. -/
structure Booking where
  booking_id : Nat
  spot_id : Nat
  driver_id : Nat
  homeowner_id : Nat
  start_time : Nat
  end_time : Nat
  total_price : Nat
  booking_status : BookingStatus
  payment_status : PaymentStatus
  stripe_payment_intent_id : Option String
  driver_check_in_time : Option Nat
  driver_check_out_time : Option Nat
  homeowner_confirm_time : Option Nat
  homeowner_reject_time : Option Nat
deriving DecidableEq, Repr

/-- A row of the parking_spots table (the columns relevant to booking). -/
structure ParkingSpot where
  spot_id : Nat
  homeowner_id : Nat
  status : SpotStatus
  is_available : Bool
deriving DecidableEq, Repr

/-- A row of the spot_availability table. -/
structure Slot where
  availability_id : Nat
  spot_id : Nat
  start_time : Nat
  end_time : Nat
  is_booked : Bool
deriving DecidableEq, Repr

/-- A row of the transactions table (the columns the modelled paths read). -/
structure Tx where
  transaction_id : Nat
  booking_id : Option Nat
  ttype : TxType
  status : TxStatus
deriving DecidableEq, Repr

/-- The database state shared by all endpoints, with AUTO_INCREMENT counters. -/
structure Db where
  spots : List ParkingSpot
  bookings : List Booking
  availability : List Slot
  transactions : List Tx
  users : List Nat
  nextBookingId : Nat
  nextSlotId : Nat
  nextTxId : Nat
deriving DecidableEq, Repr

/-- The authenticated requester, decoded from the JWT (req.user). -/
structure AuthUser where
  user_id : Nat
  user_type : UserType
deriving DecidableEq, Repr

/-- The three-clause WHERE condition of the overlap SELECT in Booking.create
(src/models/booking.js): with the placeholder list
[spot_id, end_time, start_time, start_time, end_time, start_time, end_time],
an existing row [es, ee) is reported against a candidate [cs, ce) iff
(es < ce AND ee > cs) OR (es < cs AND ee > ce) OR (es >= cs AND ee <= ce). -/
def bookingSqlConflict (es ee cs ce : Nat) : Bool :=
  (decide (es < ce) && decide (ee > cs)) ||
  (decide (es < cs) && decide (ee > ce)) ||
  (decide (es ≥ cs) && decide (ee ≤ ce))

/-- booking_status NOT IN (rejected, cancelled_by_driver,
cancelled_by_homeowner, completed): the four statuses the overlap SELECT in
Booking.create excludes, which the spec calls terminal. -/
def isTerminal : BookingStatus → Bool
  | .rejected => true
  | .cancelledByDriver => true
  | .cancelledByHomeowner => true
  | .completed => true
  | _ => false

/-- The half-open containment test: t lies in [start_time, end_time). -/
def bookingContains (b : Booking) (t : Nat) : Bool :=
  decide (b.start_time ≤ t) && decide (t < b.end_time)

/-- The row the INSERT of Booking.create writes: booking_status and
payment_status default to pending, homeowner_id is the one read from the
spot, the lifecycle timestamps start NULL. -/
def mkBooking (bid spotId driverId hid st en price : Nat)
    (intent : Option String) : Booking :=
  { booking_id := bid, spot_id := spotId, driver_id := driverId,
    homeowner_id := hid, start_time := st, end_time := en,
    total_price := price, booking_status := .pending,
    payment_status := .pending, stripe_payment_intent_id := intent,
    driver_check_in_time := none, driver_check_out_time := none,
    homeowner_confirm_time := none, homeowner_reject_time := none }

/-- The overlap SELECT of Booking.create: true iff some row of bookings has
the requested spot, meets the three-clause time condition and has a status
outside the NOT IN list. -/
def bookingCreateCheck (db : Db) (spotId st en : Nat) : Bool :=
  db.bookings.any fun b =>
    decide (b.spot_id = spotId) &&
    bookingSqlConflict b.start_time b.end_time st en &&
    !(isTerminal b.booking_status)

/-- The INSERT of Booking.create: appends the new row and advances the
AUTO_INCREMENT counter.  It is a pool.query call separate from the overlap
SELECT, with no enclosing transaction. -/
def bookingInsert (db : Db) (spotId driverId hid st en price : Nat)
    (intent : Option String) : Db :=
  { db with
    bookings :=
      db.bookings ++ [mkBooking db.nextBookingId spotId driverId hid st en price intent],
    nextBookingId := db.nextBookingId + 1 }

/-- Booking.create (src/models/booking.js): looks up homeowner_id of the spot
(404 if the spot is missing), runs the overlap SELECT (409 on a hit), then
inserts.  Note the spot lookup reads only homeowner_id: neither the spot
status nor is_available takes part, and spot_availability is never read. -/
def bookingCreate (db : Db) (spotId driverId st en price : Nat)
    (intent : Option String) : Nat × Db :=
  match db.spots.find? (fun sp => decide (sp.spot_id = spotId)) with
  | none => (404, db)
  | some sp =>
    if bookingCreateCheck db spotId st en then (409, db)
    else (201, bookingInsert db spotId driverId sp.homeowner_id st en price intent)

/-- createBooking (src/controllers/booking.js) behind the driver-only route
(src/routes/booking.js): the Joi schema requires a positive spotId and a
positive totalPrice and puts no constraint relating startTime and endTime;
driver_id is taken from the token.  Model errors keep their status codes. -/
def createBooking (db : Db) (u : AuthUser) (spotId st en price : Nat)
    (intent : Option String) : Nat × Db :=
  if u.user_type ≠ .driver then (403, db)
  else if spotId = 0 ∨ price = 0 then (400, db)
  else bookingCreate db spotId u.user_id st en price intent

/-- The nullable timestamp column names callers of Booking.updateStatus pass
as timeFieldToUpdate. -/
inductive TimeField
  | driverCheckIn
  | driverCheckOut
  | homeownerConfirm
  | homeownerReject
deriving DecidableEq, Repr

/-- The `, <field> = NOW()` part of the UPDATE in Booking.updateStatus. -/
def applyTimeField (b : Booking) (tf : Option TimeField) (now : Nat) : Booking :=
  match tf with
  | none => b
  | some .driverCheckIn => { b with driver_check_in_time := some now }
  | some .driverCheckOut => { b with driver_check_out_time := some now }
  | some .homeownerConfirm => { b with homeowner_confirm_time := some now }
  | some .homeownerReject => { b with homeowner_reject_time := some now }

/-- Booking.updateStatus (src/models/booking.js): UPDATE bookings SET
booking_status = ? [, timeField = NOW()] WHERE booking_id = ?.  Returns the
new table plus affectedRows > 0 (the connection runs with FOUND_ROWS, so
affectedRows counts matched rows). -/
def bookingUpdateStatus (db : Db) (bid : Nat) (newStatus : BookingStatus)
    (tf : Option TimeField) (now : Nat) : Db × Bool :=
  ({ db with
      bookings := db.bookings.map fun b =>
        if b.booking_id = bid then
          applyTimeField { b with booking_status := newStatus } tf now
        else b },
   db.bookings.any fun b => decide (b.booking_id = bid))

/-- The switch of updateBookingStatus (src/controllers/booking.js): given the
found booking, the three actor flags and the requested status, returns
either an error status code (403 on actor mismatch, 400 on an illegal edge)
or the timeFieldToUpdate to pass to the model.  The value pending falls into
the default branch.  The admin exemption in the completed case and the
cancel cases not listing their own status are faithful to the source. -/
def transitionCheck (bk : Booking) (isDriver isHomeowner isAdmin : Bool)
    (target : BookingStatus) : Sum Nat (Option TimeField) :=
  match target with
  | .confirmed =>
    if !isHomeowner && !isAdmin then .inl 403
    else if bk.booking_status ≠ .pending then .inl 400
    else .inr (some .homeownerConfirm)
  | .rejected =>
    if !isHomeowner && !isAdmin then .inl 403
    else if bk.booking_status ≠ .pending then .inl 400
    else .inr (some .homeownerReject)
  | .cancelledByDriver =>
    if !isDriver && !isAdmin then .inl 403
    else if bk.booking_status = .completed ∨ bk.booking_status = .checkedOut ∨
        bk.booking_status = .rejected ∨ bk.booking_status = .cancelledByHomeowner then
      .inl 400
    else .inr none
  | .cancelledByHomeowner =>
    if !isHomeowner && !isAdmin then .inl 403
    else if bk.booking_status = .completed ∨ bk.booking_status = .checkedOut ∨
        bk.booking_status = .rejected ∨ bk.booking_status = .cancelledByDriver then
      .inl 400
    else .inr none
  | .checkedIn =>
    if !isDriver && !isAdmin then .inl 403
    else if bk.booking_status ≠ .confirmed ∧ bk.booking_status ≠ .pending then .inl 400
    else .inr (some .driverCheckIn)
  | .checkedOut =>
    if !isDriver && !isAdmin then .inl 403
    else if bk.booking_status ≠ .checkedIn then .inl 400
    else .inr (some .driverCheckOut)
  | .completed =>
    if !isHomeowner && !isAdmin then .inl 403
    else if !isAdmin && bk.booking_status ≠ .checkedOut then .inl 400
    else .inr none
  | .pending => .inl 400

/-- updateBookingStatus (src/controllers/booking.js): find the booking (404
if absent; the JOIN with parking_spots in findById is dropped because no
modelled operation removes a spot), compute the actor flags from the token
and the denormalized ids on the row, run the switch, then the model UPDATE;
a vanished row yields 400, otherwise 200. -/
def updateBookingStatus (db : Db) (u : AuthUser) (bid : Nat)
    (target : BookingStatus) (now : Nat) : Nat × Db :=
  match db.bookings.find? (fun b => decide (b.booking_id = bid)) with
  | none => (404, db)
  | some bk =>
    let isDriver := decide (bk.driver_id = u.user_id) && decide (u.user_type = .driver)
    let isHomeowner := decide (bk.homeowner_id = u.user_id) && decide (u.user_type = .homeowner)
    let isAdmin := decide (u.user_type = .admin)
    match transitionCheck bk isDriver isHomeowner isAdmin target with
    | .inl code => (code, db)
    | .inr tf =>
      let r := bookingUpdateStatus db bid target tf now
      if r.2 then (200, r.1) else (400, db)

/-- The updateFields object both payment controllers build for
Booking.updatePaymentStatus: payment_status is always present,
stripe_payment_intent_id only when the caller supplies one (its value may be
NULL, hence the nested Option). -/
structure PayFields where
  payment_status : PaymentStatus
  stripe_payment_intent_id : Option (Option String)
deriving DecidableEq, Repr

/-- The JavaScript value passed as updateFields to Booking.updatePaymentStatus.
Every call in the controllers passes an object of shape PayFields, except the
call in createTransaction (src/controllers/transaction.js line 105), which
passes the bare string "paid". -/
inductive PayArg
  | fields (f : PayFields)
  | rawString (s : String)
deriving DecidableEq, Repr

/-- The column assignments the SET clause of Booking.updatePaymentStatus picks
up on a row, for the object-shaped argument. -/
def applyPayFields (b : Booking) (f : PayFields) : Booking :=
  match f.stripe_payment_intent_id with
  | none => { b with payment_status := f.payment_status }
  | some v => { b with payment_status := f.payment_status,
                       stripe_payment_intent_id := v }

/-- Booking.updatePaymentStatus (src/models/booking.js): iterates the own
enumerable keys of updateFields and builds UPDATE bookings SET key = ?, ...
WHERE booking_id = ?.  For an object argument the keys are genuine columns
and the matching rows are updated; affectedRows counts matched rows
(FOUND_ROWS).  For a string argument, the for..in loop enumerates the
character indices 0, 1, ..., so a nonempty string yields the statement
UPDATE bookings SET 0 = ?, 1 = ?, ... which MySQL rejects with a parse
error: the promise rejects and no row changes.  The empty string has no
enumerable keys, so the function returns false without querying. -/
def bookingUpdatePaymentStatus (db : Db) (bid : Nat) (arg : PayArg) :
    Except Unit (Db × Bool) :=
  match arg with
  | .rawString s =>
    if s.length = 0 then .ok (db, false) else .error ()
  | .fields f =>
    .ok ({ db with
            bookings := db.bookings.map fun b =>
              if b.booking_id = bid then applyPayFields b f else b },
         db.bookings.any fun b => decide (b.booking_id = bid))

/-- processStripePayment (src/controllers/paymentController.js): requires the
three body fields to be truthy (400 otherwise), retrieves the payment intent
from Stripe (the read-only environment stripeOf), requires its status to be
the string succeeded (400 otherwise), then updates payment_status and
stripe_payment_intent_id through the model; 200 if a row matched, 400 if
not.  A missing intent is the falsy branch of the same 400 check. -/
def processStripePayment (stripeOf : String → Option String) (db : Db)
    (bookingId : Nat) (intentId : String) (payStatus : PaymentStatus) :
    Nat × Db :=
  if bookingId = 0 ∨ intentId = "" then (400, db)
  else
    match stripeOf intentId with
    | none => (400, db)
    | some st =>
      if st ≠ "succeeded" then (400, db)
      else
        match bookingUpdatePaymentStatus db bookingId
            (.fields { payment_status := payStatus,
                       stripe_payment_intent_id := some (some intentId) }) with
        | .error _ => (500, db)
        | .ok (db2, updated) => if updated then (200, db2) else (400, db2)

/-- updatePaymentStatus (src/controllers/booking.js): find the booking (404),
allow only the homeowner on the row or an admin (403), then update
payment_status and, when supplied, stripe_payment_intent_id. -/
def updatePaymentStatus (db : Db) (u : AuthUser) (bid : Nat)
    (ps : PaymentStatus) (intent : Option (Option String)) : Nat × Db :=
  match db.bookings.find? (fun b => decide (b.booking_id = bid)) with
  | none => (404, db)
  | some bk =>
    if bk.homeowner_id ≠ u.user_id ∧ u.user_type ≠ .admin then (403, db)
    else
      match bookingUpdatePaymentStatus db bid
          (.fields { payment_status := ps, stripe_payment_intent_id := intent }) with
      | .error _ => (500, db)
      | .ok (db2, updated) => if updated then (200, db2) else (400, db2)

/-- The payer/receiver existence check of createTransaction: a provided id
that is not in users fails. -/
def userMissing (db : Db) (oid : Option Nat) : Bool :=
  match oid with
  | none => false
  | some p => !(db.users.contains p)

/-- The booking existence check of createTransaction, run only for
booking_payment transactions that carry a bookingId. -/
def bookingMissing (db : Db) (obid : Option Nat) : Bool :=
  match obid with
  | none => false
  | some b => (db.bookings.find? (fun bk => decide (bk.booking_id = b))).isNone

/-- createTransaction (src/controllers/transaction.js).  The controller calls
Transaction.create, a method the transaction model does not export (it was
renamed to createTransaction, src/models/transaction.js line 23), so under
Node the call raises TypeError and the handler answers 500 before any write;
we model the call as bound to the renamed model function, the reading under
which the function writes the most.  After inserting the transaction row,
for a completed booking_payment with a bookingId whose booking is not yet
paid, the controller calls Booking.updatePaymentStatus(bookingId, "paid")
with a bare string: the model then issues the malformed UPDATE (see
bookingUpdatePaymentStatus), the promise rejects, the catch block answers
500, and the subsequent Booking.updateStatus(..., confirmed, ...) line is
never reached.  That line is kept here, faithfully, in the dead branch. -/
def createTransaction (db : Db) (bookingId payerId receiverId : Option Nat)
    (ttype : TxType) (status : TxStatus) (now : Nat) : Nat × Db :=
  if userMissing db payerId then (400, db)
  else if userMissing db receiverId then (400, db)
  else if ttype = .bookingPayment ∧ bookingMissing db bookingId then (404, db)
  else
    let db1 : Db :=
      { db with
        transactions := db.transactions ++
          [{ transaction_id := db.nextTxId, booking_id := bookingId,
             ttype := ttype, status := status }],
        nextTxId := db.nextTxId + 1 }
    match bookingId with
    | none => (201, db1)
    | some b =>
      if ttype = .bookingPayment ∧ status = .completed then
        match db1.bookings.find? (fun bk => decide (bk.booking_id = b)) with
        | none => (201, db1)
        | some bk =>
          if bk.payment_status ≠ .paid then
            match bookingUpdatePaymentStatus db1 b (.rawString "paid") with
            | .error _ => (500, db1)
            | .ok (db2, _) =>
              if bk.booking_status = .pending then
                (201, (bookingUpdateStatus db2 b .confirmed (some .homeownerConfirm) now).1)
              else (201, db2)
          else (201, db1)
      else (201, db1)

/-- updateTransactionStatus (src/controllers/transaction.js): admin only
(403), find the transaction (404), then UPDATE transactions SET status = ?
WHERE transaction_id = ?. -/
def updateTransactionStatus (db : Db) (u : AuthUser) (txId : Nat)
    (status : TxStatus) : Nat × Db :=
  if u.user_type ≠ .admin then (403, db)
  else
    match db.transactions.find? (fun t => decide (t.transaction_id = txId)) with
    | none => (404, db)
    | some _ =>
      let db2 : Db :=
        { db with
          transactions := db.transactions.map fun t =>
            if t.transaction_id = txId then { t with status := status } else t }
      if db.transactions.any (fun t => decide (t.transaction_id = txId)) then
        (200, db2)
      else (400, db)

/-- The three-clause WHERE condition of SpotAvailability.isTimeRangeAvailable
(src/models/spotAvailability.js): with the placeholder list
[spotId, endTime, startTime, startTime, endTime, startTime, endTime], an
existing slot [es, ee) is counted against a candidate [cs, ce) iff
(es < ce AND ee > cs) OR (es >= cs AND es < ce) OR (ee > cs AND ee <= ce). -/
def slotSqlConflict (es ee cs ce : Nat) : Bool :=
  (decide (es < ce) && decide (ee > cs)) ||
  (decide (es ≥ cs) && decide (es < ce)) ||
  (decide (ee > cs) && decide (ee ≤ ce))

/-- SpotAvailability.isTimeRangeAvailable: true iff no unbooked slot of the
spot (other than the excluded one) meets the three-clause condition. -/
def isTimeRangeAvailable (db : Db) (spotId st en : Nat)
    (excludeId : Option Nat) : Bool :=
  !(db.availability.any fun sl =>
      decide (sl.spot_id = spotId) &&
      slotSqlConflict sl.start_time sl.end_time st en &&
      !sl.is_booked &&
      (match excludeId with
       | none => true
       | some e => decide (sl.availability_id ≠ e)))

/-- SpotAvailability.checkAvailabilityForBooking: true iff some unbooked slot
of the spot fully contains the candidate range.  No controller in the
repository calls this function. -/
def checkAvailabilityForBooking (db : Db) (spotId st en : Nat) : Bool :=
  db.availability.any fun sl =>
    decide (sl.spot_id = spotId) &&
    decide (sl.start_time ≤ st) &&
    decide (sl.end_time ≥ en) &&
    !sl.is_booked

/-- createSpotAvailability (src/controllers/spotAvailability.js): the Joi
custom rules reject startTime >= endTime and endTime <= now (400), then the
spot is resolved (404), ownership or admin required (403), the unbooked
slots of the spot are checked for overlap (409), and the slot is inserted
with is_booked defaulting to FALSE (201). -/
def createSpotAvailability (db : Db) (u : AuthUser) (spotId st en now : Nat) :
    Nat × Db :=
  if en ≤ st then (400, db)
  else if en ≤ now then (400, db)
  else
    match db.spots.find? (fun sp => decide (sp.spot_id = spotId)) with
    | none => (404, db)
    | some sp =>
      if sp.homeowner_id ≠ u.user_id ∧ u.user_type ≠ .admin then (403, db)
      else if !(isTimeRangeAvailable db spotId st en none) then (409, db)
      else
        (201,
         { db with
           availability := db.availability ++
             [{ availability_id := db.nextSlotId, spot_id := spotId,
                start_time := st, end_time := en, is_booked := false }],
           nextSlotId := db.nextSlotId + 1 })

/-- Default row used with List.getD when stating index-based properties. -/
def bkDefault : Booking := mkBooking 0 0 0 0 0 0 0 none

/-- The states reachable from an empty bookings table by any sequence of
createBooking and updateBookingStatus calls, each applied sequentially. -/
inductive Reachable : Db → Prop
  | init (db : Db) (h : db.bookings = []) : Reachable db
  | create (db : Db) (h : Reachable db) (u : AuthUser)
      (spotId st en price : Nat) (intent : Option String) :
      Reachable (createBooking db u spotId st en price intent).2
  | update (db : Db) (h : Reachable db) (u : AuthUser) (bid : Nat)
      (target : BookingStatus) (now : Nat) :
      Reachable (updateBookingStatus db u bid target now).2

/-- The pairwise safety relation between two booking rows: distinct primary
keys, and if they sit on the same spot and are both non-terminal then their
half-open ranges do not overlap. -/
def Rel (a b : Booking) : Prop :=
  a.booking_id ≠ b.booking_id ∧
  (a.spot_id = b.spot_id → isTerminal a.booking_status = false →
    isTerminal b.booking_status = false →
    ¬(a.start_time < b.end_time ∧ b.start_time < a.end_time))

/-- Rel at every pair of distinct positions of the bookings table. -/
def InvList (l : List Booking) : Prop :=
  ∀ i j, (hi : i < l.length) → (hj : j < l.length) → i ≠ j → Rel l[i] l[j]

/-- The inductive invariant: primary keys are below the AUTO_INCREMENT
counter, and the table is pairwise safe. -/
def Inv (db : Db) : Prop :=
  (∀ b ∈ db.bookings, b.booking_id < db.nextBookingId) ∧ InvList db.bookings

theorem applyTimeField_booking_id (b : Booking) (tf : Option TimeField) (now : Nat) :
    (applyTimeField b tf now).booking_id = b.booking_id := by
  cases tf with
  | none => rfl
  | some f => cases f <;> rfl

theorem applyTimeField_spot_id (b : Booking) (tf : Option TimeField) (now : Nat) :
    (applyTimeField b tf now).spot_id = b.spot_id := by
  cases tf with
  | none => rfl
  | some f => cases f <;> rfl

theorem applyTimeField_start_time (b : Booking) (tf : Option TimeField) (now : Nat) :
    (applyTimeField b tf now).start_time = b.start_time := by
  cases tf with
  | none => rfl
  | some f => cases f <;> rfl

theorem applyTimeField_end_time (b : Booking) (tf : Option TimeField) (now : Nat) :
    (applyTimeField b tf now).end_time = b.end_time := by
  cases tf with
  | none => rfl
  | some f => cases f <;> rfl

theorem applyTimeField_booking_status (b : Booking) (tf : Option TimeField) (now : Nat) :
    (applyTimeField b tf now).booking_status = b.booking_status := by
  cases tf with
  | none => rfl
  | some f => cases f <;> rfl

theorem applyTimeField_payment_status (b : Booking) (tf : Option TimeField) (now : Nat) :
    (applyTimeField b tf now).payment_status = b.payment_status := by
  cases tf with
  | none => rfl
  | some f => cases f <;> rfl

/-- A transition the switch lets through into a non-terminal status starts
from a non-terminal status: confirmed requires pending, checked_in requires
pending or confirmed, checked_out requires checked_in, and pending itself is
never let through. -/
theorem transitionCheck_nonterminal (bk : Booking) (d h a : Bool)
    (target : BookingStatus) (tf : Option TimeField)
    (hck : transitionCheck bk d h a target = .inr tf)
    (hnt : isTerminal target = false) :
    isTerminal bk.booking_status = false := by
  cases target with
  | pending => exact absurd hck (by simp [transitionCheck])
  | rejected => simp [isTerminal] at hnt
  | cancelledByDriver => simp [isTerminal] at hnt
  | cancelledByHomeowner => simp [isTerminal] at hnt
  | completed => simp [isTerminal] at hnt
  | confirmed =>
    simp only [transitionCheck] at hck
    split at hck
    · cases hck
    · split at hck
      · cases hck
      · rename_i hcond
        rw [not_ne_iff.mp hcond]
        rfl
  | checkedIn =>
    simp only [transitionCheck] at hck
    split at hck
    · cases hck
    · split at hck
      · cases hck
      · rename_i hcond
        rcases not_and_or.mp hcond with hc | hc
        · rw [not_ne_iff.mp hc]; rfl
        · rw [not_ne_iff.mp hc]; rfl
  | checkedOut =>
    simp only [transitionCheck] at hck
    split at hck
    · cases hck
    · split at hck
      · cases hck
      · rename_i hcond
        rw [not_ne_iff.mp hcond]
        rfl

/-- getD agrees with positional access below the length. -/
theorem getD_eq_getElem_of_lt (l : List Booking) (i : Nat) (hi : i < l.length) :
    l.getD i bkDefault = l[i] := by
  simp [List.getD_eq_getElem?_getD, List.getElem?_eq_getElem hi]

/-- A successful overlap SELECT (no row reported) refutes the predicate on
every row of the table. -/
theorem bookingCreateCheck_false (db : Db) (spotId st en : Nat)
    (hk : bookingCreateCheck db spotId st en = false) (x : Booking)
    (hx : x ∈ db.bookings) (hspot : x.spot_id = spotId)
    (hterm : isTerminal x.booking_status = false)
    (h1 : x.start_time < en) (h2 : st < x.end_time) : False := by
  have hpx : (decide (x.spot_id = spotId) &&
      bookingSqlConflict x.start_time x.end_time st en &&
      !(isTerminal x.booking_status)) = true := by
    simp [hspot, hterm, bookingSqlConflict, h1, h2]
  have : bookingCreateCheck db spotId st en = true :=
    List.any_eq_true.mpr ⟨x, hx, hpx⟩
  rw [hk] at this
  cases this

/-- Inserting a row that passed the overlap SELECT preserves the invariant. -/
theorem inv_insert (db : Db) (spotId driverId hid st en price : Nat)
    (intent : Option String) (hinv : Inv db)
    (hk : bookingCreateCheck db spotId st en = false) :
    Inv (bookingInsert db spotId driverId hid st en price intent) := by
  obtain ⟨hbound, hpair⟩ := hinv
  set nb := mkBooking db.nextBookingId spotId driverId hid st en price intent with hnb
  have rel_new : ∀ x ∈ db.bookings, Rel x nb ∧ Rel nb x := by
    intro x hx
    have hxid : x.booking_id ≠ nb.booking_id := by
      have := hbound x hx
      simp only [hnb, mkBooking]
      omega
    constructor
    · refine ⟨hxid, ?_⟩
      intro hspot htx htn hov
      exact bookingCreateCheck_false db spotId st en hk x hx
        (by simpa [hnb, mkBooking] using hspot) htx hov.1
        (by simpa [hnb, mkBooking] using hov.2)
    · refine ⟨fun h => hxid h.symm, ?_⟩
      intro hspot htn htx hov
      exact bookingCreateCheck_false db spotId st en hk x hx
        (by simp [hnb, mkBooking] at hspot; omega) htx
        (by simpa [hnb, mkBooking] using hov.2)
        (by simpa [hnb, mkBooking] using hov.1)
  constructor
  · intro b hb
    simp only [bookingInsert, List.mem_append, List.mem_singleton] at hb
    rcases hb with hb | hb
    · exact Nat.lt_succ_of_lt (hbound b hb)
    · subst hb
      simp [bookingInsert, hnb, mkBooking]
  · intro i j hi hj hij
    have hi2 : i < db.bookings.length + 1 := by
      simpa [bookingInsert] using hi
    have hj2 : j < db.bookings.length + 1 := by
      simpa [bookingInsert] using hj
    have hgoal : (bookingInsert db spotId driverId hid st en price intent).bookings =
        db.bookings ++ [nb] := by
      simp [bookingInsert]
    rcases Nat.lt_succ_iff_lt_or_eq.mp hi2 with hi3 | hi3 <;>
      rcases Nat.lt_succ_iff_lt_or_eq.mp hj2 with hj3 | hj3
    · have := hpair i j hi3 hj3 hij
      simpa [hgoal, List.getElem_append_left hi3, List.getElem_append_left hj3]
        using this
    · have hji : (db.bookings ++ [nb])[j] = nb :=
        List.getElem_concat_length db.bookings nb j hj3 (by simpa [hgoal] using hj)
      have hmem : db.bookings[i] ∈ db.bookings := List.getElem_mem hi3
      have := (rel_new db.bookings[i] hmem).1
      simpa [hgoal, List.getElem_append_left hi3, hji] using this
    · have hii : (db.bookings ++ [nb])[i] = nb :=
        List.getElem_concat_length db.bookings nb i hi3 (by simpa [hgoal] using hi)
      have hmem : db.bookings[j] ∈ db.bookings := List.getElem_mem hj3
      have := (rel_new db.bookings[j] hmem).2
      simpa [hgoal, List.getElem_append_left hj3, hii] using this
    · exact absurd (hi3.trans hj3.symm) hij

/-- The state after updateBookingStatus is either unchanged or the UPDATE of
the model applied with a switch-approved timeFieldToUpdate. -/
theorem updateBookingStatus_state (db : Db) (u : AuthUser) (bid : Nat)
    (target : BookingStatus) (now : Nat) :
    (updateBookingStatus db u bid target now).2 = db ∨
    ∃ bk tf, db.bookings.find? (fun b => decide (b.booking_id = bid)) = some bk ∧
      transitionCheck bk (decide (bk.driver_id = u.user_id) && decide (u.user_type = .driver))
        (decide (bk.homeowner_id = u.user_id) && decide (u.user_type = .homeowner))
        (decide (u.user_type = .admin)) target = .inr tf ∧
      (updateBookingStatus db u bid target now).2 =
        (bookingUpdateStatus db bid target tf now).1 := by
  unfold updateBookingStatus
  cases hfind : db.bookings.find? (fun b => decide (b.booking_id = bid)) with
  | none => left; rfl
  | some bk =>
    cases hck : transitionCheck bk
        (decide (bk.driver_id = u.user_id) && decide (u.user_type = .driver))
        (decide (bk.homeowner_id = u.user_id) && decide (u.user_type = .homeowner))
        (decide (u.user_type = .admin)) target with
    | inl code => left; simp [hck]
    | inr tf =>
      by_cases hr : (bookingUpdateStatus db bid target tf now).2
      · right
        exact ⟨bk, tf, rfl, hck, by simp [hck, hr]⟩
      · left
        simp [hck, hr]

/-- Any updateBookingStatus call preserves the invariant: the UPDATE touches
neither time ranges nor spots, and the switch only lets a row move to a
non-terminal status from a non-terminal status. -/
theorem inv_update (db : Db) (u : AuthUser) (bid : Nat)
    (target : BookingStatus) (now : Nat) (hinv : Inv db) :
    Inv (updateBookingStatus db u bid target now).2 := by
  rcases updateBookingStatus_state db u bid target now with hst | ⟨bk, tf, hfind, hck, hst⟩
  · rwa [hst]
  · rw [hst]
    obtain ⟨hbound, hpair⟩ := hinv
    have hbkmem : bk ∈ db.bookings := List.mem_of_find?_eq_some hfind
    have hbkid : bk.booking_id = bid := by
      have := List.find?_some hfind
      exact of_decide_eq_true this
    -- every row carrying the updated primary key is the found row
    have huniq : ∀ i, (hi : i < db.bookings.length) →
        db.bookings[i].booking_id = bid → db.bookings[i] = bk := by
      intro i hi hieq
      obtain ⟨k, hk, hkeq⟩ := List.mem_iff_getElem.mp hbkmem
      by_cases hik : i = k
      · subst hik
        exact hkeq
      · have := (hpair i k hi hk hik).1
        rw [hkeq, hbkid] at this
        exact absurd hieq this
    have hgate : isTerminal target = false → isTerminal bk.booking_status = false :=
      transitionCheck_nonterminal bk _ _ _ target tf hck
    constructor
    · intro b hb
      simp only [bookingUpdateStatus, List.mem_map] at hb
      obtain ⟨a, ha, hab⟩ := hb
      have hb_id : b.booking_id = a.booking_id := by
        subst hab
        by_cases h : a.booking_id = bid <;>
          simp [h, applyTimeField_booking_id]
      rw [hb_id]
      exact hbound a ha
    · intro i j hi hj hij
      have hi0 : i < db.bookings.length := by
        simpa [bookingUpdateStatus] using hi
      have hj0 : j < db.bookings.length := by
        simpa [bookingUpdateStatus] using hj
      have hrel := hpair i j hi0 hj0 hij
      have hgi : (bookingUpdateStatus db bid target tf now).1.bookings[i] =
          (fun b => if b.booking_id = bid then
            applyTimeField { b with booking_status := target } tf now else b)
            db.bookings[i] := by
        simp [bookingUpdateStatus]
      have hgj : (bookingUpdateStatus db bid target tf now).1.bookings[j] =
          (fun b => if b.booking_id = bid then
            applyTimeField { b with booking_status := target } tf now else b)
            db.bookings[j] := by
        simp [bookingUpdateStatus]
      rw [hgi, hgj]
      by_cases ha : db.bookings[i].booking_id = bid <;>
        by_cases hb : db.bookings[j].booking_id = bid
      · exact absurd (ha.trans hb.symm) hrel.1
      · simp only [ha, hb, if_pos, if_neg, if_true, if_false]
        refine ⟨?_, ?_⟩
        · rw [applyTimeField_booking_id]
          simpa [ha] using hrel.1
        · intro hspot hta htb hov
          rw [applyTimeField_spot_id] at hspot
          rw [applyTimeField_booking_status] at hta
          rw [applyTimeField_start_time, applyTimeField_end_time] at hov
          have hnt : isTerminal db.bookings[i].booking_status = false := by
            have := huniq i hi0 ha
            rw [this]
            exact hgate hta
          exact hrel.2 (by simpa using hspot) hnt htb (by simpa using hov)
      · simp only [ha, hb, if_pos, if_neg, if_true, if_false]
        refine ⟨?_, ?_⟩
        · rw [applyTimeField_booking_id]
          simpa [hb] using hrel.1
        · intro hspot hta htb hov
          rw [applyTimeField_spot_id] at hspot
          rw [applyTimeField_booking_status] at htb
          rw [applyTimeField_start_time, applyTimeField_end_time] at hov
          have hnt : isTerminal db.bookings[j].booking_status = false := by
            have := huniq j hj0 hb
            rw [this]
            exact hgate htb
          exact hrel.2 (by simpa using hspot) hta hnt (by simpa using hov)
      · simp only [ha, hb, if_neg, if_false]
        exact hrel

/-- Every reachable state satisfies the inductive invariant. -/
theorem reachable_inv (db : Db) (h : Reachable db) : Inv db := by
  induction h with
  | init db h =>
    constructor
    · intro b hb
      rw [h] at hb
      cases hb
    · intro i j hi hj hij
      rw [h] at hi
      exact absurd hi (by simp)
  | create db h u spotId st en price intent ih =>
    unfold createBooking
    split
    · exact ih
    · split
      · exact ih
      · unfold bookingCreate
        cases hfind : db.spots.find? (fun sp => decide (sp.spot_id = spotId)) with
        | none => exact ih
        | some sp =>
          by_cases hk : bookingCreateCheck db spotId st en
          · simp only [hk, if_true]
            exact ih
          · simp only [hk, if_false, Bool.false_eq_true]
            exact inv_insert db spotId u.user_id sp.homeowner_id st en price intent ih
              (by simpa using hk)
  | update db h u bid target now ih =>
    exact inv_update db u bid target now ih

/-- A database with one active spot (id 1, owner 7) and all tables empty:
the starting point of the concrete scenarios below. -/
def db0 : Db :=
  { spots := [{ spot_id := 1, homeowner_id := 7, status := .active, is_available := true }],
    bookings := [], availability := [], transactions := [], users := [],
    nextBookingId := 1, nextSlotId := 1, nextTxId := 1 }

/-- A driver account used in the concrete scenarios. -/
def uDriver : AuthUser := { user_id := 5, user_type := .driver }

/-- db0 after the driver booked [10, 12) and then [12, 14) on spot 1. -/
def dbTwoBookings : Db :=
  (createBooking (createBooking db0 uDriver 1 10 12 100 none).2 uDriver 1 12 14 100 none).2

/-- C1: in every state reachable by any sequence of createBooking and
booking status-transition operations, for every time t, no two rows of the
bookings table at distinct positions are on the same spot, both non-terminal
and both containing t in their half-open range: at most one non-terminal
booking on a spot covers any instant. -/
theorem claim1_no_double_booking_invariant (db : Db) (h : Reachable db)
    (t i j : Nat) (hi : i < db.bookings.length) (hj : j < db.bookings.length)
    (hij : i ≠ j)
    (hspot : (db.bookings.getD i bkDefault).spot_id =
      (db.bookings.getD j bkDefault).spot_id)
    (hti : isTerminal (db.bookings.getD i bkDefault).booking_status = false)
    (htj : isTerminal (db.bookings.getD j bkDefault).booking_status = false) :
    ¬(bookingContains (db.bookings.getD i bkDefault) t = true ∧
      bookingContains (db.bookings.getD j bkDefault) t = true) := by
  rw [getD_eq_getElem_of_lt _ _ hi] at hspot hti ⊢
  rw [getD_eq_getElem_of_lt _ _ hj] at hspot htj ⊢
  rintro ⟨hc1, hc2⟩
  simp only [bookingContains, Bool.and_eq_true, decide_eq_true_eq] at hc1 hc2
  have hrel := (reachable_inv db h).2 i j hi hj hij
  exact hrel.2 hspot hti htj
    ⟨Nat.lt_of_le_of_lt hc1.1 hc2.2, Nat.lt_of_le_of_lt hc2.1 hc1.2⟩

/-- Witness for C1 at a concrete reachable state: after booking [10, 12) and
[12, 14) on spot 1, the two rows do not both contain the instant 11. -/
theorem claim1_witness :
    ¬(bookingContains (dbTwoBookings.bookings.getD 0 bkDefault) 11 = true ∧
      bookingContains (dbTwoBookings.bookings.getD 1 bkDefault) 11 = true) :=
  claim1_no_double_booking_invariant dbTwoBookings
    (Reachable.create _ (Reachable.create _ (Reachable.init db0 rfl)
      uDriver 1 10 12 100 none) uDriver 1 12 14 100 none)
    11 0 1 (by decide) (by decide) (by decide) (by decide) (by decide) (by decide)

/-- For genuine half-open intervals (positive length on both sides), the
three-clause booking condition collapses to the single strict pair. -/
theorem bookingSqlConflict_true_iff (es ee cs ce : Nat) (hs : es < ee)
    (hc : cs < ce) :
    bookingSqlConflict es ee cs ce = true ↔ (es < ce ∧ cs < ee) := by
  simp only [bookingSqlConflict, Bool.or_eq_true, Bool.and_eq_true,
    decide_eq_true_eq]
  omega

/-- C2: the conflict predicate of createBooking decides exactly
existing.start < candidate.end AND candidate.start < existing.end on
half-open intervals; a candidate [10:00, 11:00) does not conflict with an
existing [11:00, 12:00), while [10:30, 11:30) does (times in minutes). -/
theorem claim2_overlap_predicate_equiv (es ee cs ce : Nat) (hs : es < ee)
    (hc : cs < ce) :
    (bookingSqlConflict es ee cs ce = true ↔ (es < ce ∧ cs < ee)) ∧
    bookingSqlConflict 660 720 600 660 = false ∧
    bookingSqlConflict 660 720 630 690 = true :=
  ⟨bookingSqlConflict_true_iff es ee cs ce hs hc, by decide, by decide⟩

/-- Witness for C2 at the concrete intervals [0, 2) and [1, 3). -/
theorem claim2_witness :
    (bookingSqlConflict 0 2 1 3 = true ↔ (0 < 3 ∧ 1 < 2)) ∧
    bookingSqlConflict 660 720 600 660 = false ∧
    bookingSqlConflict 660 720 630 690 = true :=
  claim2_overlap_predicate_equiv 0 2 1 3 (by decide) (by decide)

/-- C3 fails on the code: on db0 the availability ledger is empty, so no
unbooked slot covers [10, 12) on spot 1, yet the booking request succeeds
with 201 and a booking row is created. -/
theorem claim3_counterexample :
    checkAvailabilityForBooking db0 1 10 12 = false ∧
    db0.availability = [] ∧
    (createBooking db0 uDriver 1 10 12 100 none).1 = 201 ∧
    (createBooking db0 uDriver 1 10 12 100 none).2.bookings.length = 1 := by
  refine ⟨by decide, rfl, by decide, by decide⟩

/-- C3 amended: the booking-creation path never reads the availability
ledger; replacing the spot_availability table by arbitrary contents changes
neither the status code nor anything else in the outcome. -/
theorem claim3_ledger_not_consulted (db : Db) (av : List Slot) (u : AuthUser)
    (spotId st en price : Nat) (intent : Option String) :
    (createBooking { db with availability := av } u spotId st en price intent).1 =
      (createBooking db u spotId st en price intent).1 ∧
    (createBooking { db with availability := av } u spotId st en price intent).2 =
      { (createBooking db u spotId st en price intent).2 with availability := av } := by
  unfold createBooking
  split_ifs with h1 h2
  · exact ⟨rfl, rfl⟩
  · exact ⟨rfl, rfl⟩
  · unfold bookingCreate
    cases hfind : db.spots.find? (fun sp => decide (sp.spot_id = spotId)) with
    | none => exact ⟨rfl, rfl⟩
    | some sp =>
      dsimp only
      have hk2 : bookingCreateCheck { db with availability := av } spotId st en =
          bookingCreateCheck db spotId st en := rfl
      rw [hk2]
      by_cases hck : bookingCreateCheck db spotId st en = true
      · rw [if_pos hck, if_pos hck]
        exact ⟨rfl, rfl⟩
      · rw [if_neg hck, if_neg hck]
        exact ⟨rfl, rfl⟩

/-- A database whose only spot is inactive and flagged unavailable. -/
def dbInactiveSpot : Db :=
  { spots := [{ spot_id := 1, homeowner_id := 7, status := .inactive, is_available := false }],
    bookings := [], availability := [], transactions := [], users := [],
    nextBookingId := 1, nextSlotId := 1, nextTxId := 1 }

/-- C4 fails on the code: the only spot has status inactive and
is_available false, yet the booking request succeeds with 201 and creates a
booking row. -/
theorem claim4_counterexample :
    dbInactiveSpot.spots.all
      (fun sp => decide (sp.status = .inactive) && !sp.is_available) = true ∧
    (createBooking dbInactiveSpot uDriver 1 10 12 100 none).1 = 201 ∧
    (createBooking dbInactiveSpot uDriver 1 10 12 100 none).2.bookings.length = 1 := by
  refine ⟨by decide, by decide, by decide⟩

/-- Rewrites the status and is_available of every spot, leaving keys and
owners alone: the probe used to show createBooking never reads them. -/
def repaintSpots (db : Db) (f : SpotStatus → SpotStatus) (g : Bool → Bool) : Db :=
  { db with
    spots := db.spots.map fun sp =>
      { sp with status := f sp.status, is_available := g sp.is_available } }

/-- C4 amended: booking creation depends on the spot row only through its
existence and homeowner_id; rewriting status and is_available arbitrarily on
every spot changes neither the status code nor the bookings produced. -/
theorem claim4_spot_state_not_consulted (db : Db) (u : AuthUser)
    (spotId st en price : Nat) (intent : Option String)
    (f : SpotStatus → SpotStatus) (g : Bool → Bool) :
    (createBooking (repaintSpots db f g) u spotId st en price intent).1 =
      (createBooking db u spotId st en price intent).1 ∧
    (createBooking (repaintSpots db f g) u spotId st en price intent).2.bookings =
      (createBooking db u spotId st en price intent).2.bookings := by
  unfold createBooking
  split_ifs with h1 h2
  · exact ⟨rfl, rfl⟩
  · exact ⟨rfl, rfl⟩
  · unfold bookingCreate
    have hfind : (repaintSpots db f g).spots.find?
        (fun sp => decide (sp.spot_id = spotId)) =
        (db.spots.find? (fun sp => decide (sp.spot_id = spotId))).map
          (fun sp => { sp with status := f sp.status, is_available := g sp.is_available }) := by
      simp only [repaintSpots]
      rw [List.find?_map]
      rfl
    rw [hfind]
    cases hf : db.spots.find? (fun sp => decide (sp.spot_id = spotId)) with
    | none => exact ⟨rfl, rfl⟩
    | some sp =>
      have hk : bookingCreateCheck (repaintSpots db f g) spotId st en =
          bookingCreateCheck db spotId st en := rfl
      simp only [Option.map_some']
      rw [hk]
      by_cases hck : bookingCreateCheck db spotId st en = true
      · rw [if_pos hck, if_pos hck]
        exact ⟨rfl, rfl⟩
      · rw [if_neg hck, if_neg hck]
        exact ⟨rfl, rfl⟩

/-- The switch only ever produces the error codes 400 and 403. -/
theorem transitionCheck_inl (bk : Booking) (d h a : Bool)
    (target : BookingStatus) (c : Nat)
    (hck : transitionCheck bk d h a target = .inl c) : c = 400 ∨ c = 403 := by
  cases target <;> simp only [transitionCheck] at hck <;>
    first
    | (cases hck; exact Or.inl rfl)
    | (split at hck
       · cases hck; exact Or.inr rfl
       · split at hck
         · cases hck; exact Or.inl rfl
         · cases hck)

/-- On a booking in a terminal status, the switch lets a request through
exactly when the admin flag is set and the request targets completed, or
when the request re-applies the cancellation status the row already has and
the matching actor flag (or admin) is set. -/
theorem transitionCheck_terminal (bk : Booking) (d h a : Bool)
    (target : BookingStatus)
    (hterm : isTerminal bk.booking_status = true) :
    (∃ tf, transitionCheck bk d h a target = .inr tf) ↔
      ((a = true ∧ target = .completed) ∨
        (target = bk.booking_status ∧
          ((bk.booking_status = .cancelledByDriver ∧ (d || a) = true) ∨
            (bk.booking_status = .cancelledByHomeowner ∧ (h || a) = true)))) := by
  cases hbs : bk.booking_status with
  | pending => rw [hbs] at hterm; simp [isTerminal] at hterm
  | confirmed => rw [hbs] at hterm; simp [isTerminal] at hterm
  | checkedIn => rw [hbs] at hterm; simp [isTerminal] at hterm
  | checkedOut => rw [hbs] at hterm; simp [isTerminal] at hterm
  | rejected =>
    cases target <;> cases d <;> cases h <;> cases a <;> simp [transitionCheck, hbs]
  | cancelledByDriver =>
    cases target <;> cases d <;> cases h <;> cases a <;> simp [transitionCheck, hbs]
  | cancelledByHomeowner =>
    cases target <;> cases d <;> cases h <;> cases a <;> simp [transitionCheck, hbs]
  | completed =>
    cases target <;> cases d <;> cases h <;> cases a <;> simp [transitionCheck, hbs]

/-- A through request targeting a terminal status from a terminal status
carries no timestamp column. -/
theorem transitionCheck_terminal_tf_none (bk : Booking) (d h a : Bool)
    (target : BookingStatus) (tf : Option TimeField)
    (htermt : isTerminal target = true)
    (htermb : isTerminal bk.booking_status = true)
    (hck : transitionCheck bk d h a target = .inr tf) : tf = none := by
  cases target with
  | pending => simp [transitionCheck] at hck
  | confirmed => simp [isTerminal] at htermt
  | checkedIn => simp [isTerminal] at htermt
  | checkedOut => simp [isTerminal] at htermt
  | rejected =>
    simp only [transitionCheck] at hck
    split at hck
    · cases hck
    · split at hck
      · cases hck
      · rename_i hcond
        rw [not_ne_iff.mp hcond] at htermb
        simp [isTerminal] at htermb
  | cancelledByDriver =>
    simp only [transitionCheck] at hck
    split at hck
    · cases hck
    · split at hck
      · cases hck
      · exact (Sum.inr.inj hck).symm
  | cancelledByHomeowner =>
    simp only [transitionCheck] at hck
    split at hck
    · cases hck
    · split at hck
      · cases hck
      · exact (Sum.inr.inj hck).symm
  | completed =>
    simp only [transitionCheck] at hck
    split at hck
    · cases hck
    · split at hck
      · cases hck
      · exact (Sum.inr.inj hck).symm

/-- The controller answers 200 exactly when the switch lets the request
through; on a through request it answers with the model UPDATE applied, on a
blocked request it answers the switch code and leaves the state alone. -/
theorem updateBookingStatus_code (db : Db) (u : AuthUser) (bid : Nat)
    (target : BookingStatus) (now : Nat) (bk : Booking)
    (hfind : db.bookings.find? (fun b => decide (b.booking_id = bid)) = some bk) :
    ((updateBookingStatus db u bid target now).1 = 200 ↔
      ∃ tf, transitionCheck bk
        (decide (bk.driver_id = u.user_id) && decide (u.user_type = .driver))
        (decide (bk.homeowner_id = u.user_id) && decide (u.user_type = .homeowner))
        (decide (u.user_type = .admin)) target = .inr tf) ∧
    (∀ tf, transitionCheck bk
        (decide (bk.driver_id = u.user_id) && decide (u.user_type = .driver))
        (decide (bk.homeowner_id = u.user_id) && decide (u.user_type = .homeowner))
        (decide (u.user_type = .admin)) target = .inr tf →
      updateBookingStatus db u bid target now =
        (200, (bookingUpdateStatus db bid target tf now).1)) ∧
    (∀ c, transitionCheck bk
        (decide (bk.driver_id = u.user_id) && decide (u.user_type = .driver))
        (decide (bk.homeowner_id = u.user_id) && decide (u.user_type = .homeowner))
        (decide (u.user_type = .admin)) target = .inl c →
      updateBookingStatus db u bid target now = (c, db)) := by
  have hbkmem : bk ∈ db.bookings := List.mem_of_find?_eq_some hfind
  have hbkid : bk.booking_id = bid := by
    have hp := List.find?_some hfind
    exact of_decide_eq_true hp
  have hany : (db.bookings.any fun b => decide (b.booking_id = bid)) = true :=
    List.any_eq_true.mpr ⟨bk, hbkmem, by simp [hbkid]⟩
  unfold updateBookingStatus
  rw [hfind]
  dsimp only
  cases hck : transitionCheck bk
      (decide (bk.driver_id = u.user_id) && decide (u.user_type = .driver))
      (decide (bk.homeowner_id = u.user_id) && decide (u.user_type = .homeowner))
      (decide (u.user_type = .admin)) target with
  | inl c =>
    refine ⟨?_, ?_, ?_⟩
    · rcases transitionCheck_inl bk _ _ _ target c hck with h4 | h4 <;>
        subst h4 <;> simp
    · intro tf0 hck0
      simp at hck0
    · intro c0 hc0
      cases hc0
      rfl
  | inr tf =>
    have hupd : (bookingUpdateStatus db bid target tf now).2 = true := by
      simp only [bookingUpdateStatus]
      exact hany
    refine ⟨?_, ?_, ?_⟩
    · simp [hupd]
    · intro tf0 hck0
      cases hck0
      simp [hupd]
    · intro c hc
      simp at hc

/-- A rejected (terminal) booking row on spot 1. -/
def bkRejected : Booking :=
  { booking_id := 1, spot_id := 1, driver_id := 5, homeowner_id := 7,
    start_time := 10, end_time := 12, total_price := 100,
    booking_status := .rejected, payment_status := .pending,
    stripe_payment_intent_id := none, driver_check_in_time := none,
    driver_check_out_time := none, homeowner_confirm_time := none,
    homeowner_reject_time := none }

/-- A database holding one rejected (terminal) booking on spot 1. -/
def dbRejected : Db :=
  { spots := [{ spot_id := 1, homeowner_id := 7, status := .active, is_available := true }],
    bookings := [bkRejected],
    availability := [], transactions := [], users := [],
    nextBookingId := 2, nextSlotId := 1, nextTxId := 1 }

/-- An admin account used in the concrete scenarios. -/
def uAdmin : AuthUser := { user_id := 9, user_type := .admin }

/-- C5 fails on the code: booking 1 is in the terminal status rejected, yet
an admin request targeting completed answers 200 and moves the row to
completed, instead of failing with 400 and leaving the status unchanged. -/
theorem claim5_counterexample :
    isTerminal (dbRejected.bookings.getD 0 bkDefault).booking_status = true ∧
    (updateBookingStatus dbRejected uAdmin 1 .completed 50).1 = 200 ∧
    ((updateBookingStatus dbRejected uAdmin 1 .completed 50).2.bookings.getD 0
      bkDefault).booking_status = .completed := by
  decide

/-- C5 amended: for a booking found in a terminal status, a transition
request succeeds (200) exactly when the requester is an admin targeting
completed, or when it re-applies the same cancellation status with the
matching actor (or admin); any other request fails with 400 or 403 and
leaves the state untouched, and a successful re-application of the same
cancellation status also leaves the state untouched. -/
theorem claim5_terminal_transitions (db : Db) (u : AuthUser) (bid : Nat)
    (target : BookingStatus) (now : Nat) (bk : Booking)
    (hfind : db.bookings.find? (fun b => decide (b.booking_id = bid)) = some bk)
    (hterm : isTerminal bk.booking_status = true)
    (huniq : ∀ x ∈ db.bookings, x.booking_id = bid → x = bk) :
    ((updateBookingStatus db u bid target now).1 = 200 ↔
      ((u.user_type = .admin ∧ target = .completed) ∨
        (target = bk.booking_status ∧
          ((bk.booking_status = .cancelledByDriver ∧
              ((bk.driver_id = u.user_id ∧ u.user_type = .driver) ∨
                u.user_type = .admin)) ∨
            (bk.booking_status = .cancelledByHomeowner ∧
              ((bk.homeowner_id = u.user_id ∧ u.user_type = .homeowner) ∨
                u.user_type = .admin)))))) ∧
    ((updateBookingStatus db u bid target now).1 ≠ 200 →
      (updateBookingStatus db u bid target now).2 = db ∧
      ((updateBookingStatus db u bid target now).1 = 400 ∨
        (updateBookingStatus db u bid target now).1 = 403)) ∧
    ((updateBookingStatus db u bid target now).1 = 200 →
      target = bk.booking_status →
      (updateBookingStatus db u bid target now).2 = db) := by
  obtain ⟨hiff, hinr, hinl⟩ := updateBookingStatus_code db u bid target now bk hfind
  have hbkid : bk.booking_id = bid := by
    have hp := List.find?_some hfind
    exact of_decide_eq_true hp
  refine ⟨?_, ?_, ?_⟩
  · rw [hiff, transitionCheck_terminal bk _ _ _ target hterm]
    simp [Bool.and_eq_true, Bool.or_eq_true, decide_eq_true_eq]
  · intro hne
    cases hck : transitionCheck bk
        (decide (bk.driver_id = u.user_id) && decide (u.user_type = .driver))
        (decide (bk.homeowner_id = u.user_id) && decide (u.user_type = .homeowner))
        (decide (u.user_type = .admin)) target with
    | inl c =>
      have hres := hinl c hck
      rcases transitionCheck_inl bk _ _ _ target c hck with h4 | h4 <;>
        subst h4 <;> rw [hres] <;> exact ⟨rfl, by simp⟩
    | inr tf =>
      exact absurd (by rw [hinr tf hck]) hne
  · intro h200 htarget
    obtain ⟨tf, hck⟩ := hiff.mp h200
    have htf : tf = none :=
      transitionCheck_terminal_tf_none bk _ _ _ target tf
        (htarget ▸ hterm) hterm hck
    subst htf
    rw [hinr none hck]
    have hmap : (db.bookings.map fun b =>
        if b.booking_id = bid then
          applyTimeField { b with booking_status := target } none now
        else b) = db.bookings := by
      have hpt : ∀ x ∈ db.bookings,
          (if x.booking_id = bid then
            applyTimeField { x with booking_status := target } none now
          else x) = id x := by
        intro x hx
        by_cases hxid : x.booking_id = bid
        · rw [if_pos hxid, huniq x hx hxid]
          show { bk with booking_status := target } = bk
          rw [htarget]
        · rw [if_neg hxid]
          rfl
      rw [List.map_congr_left hpt, List.map_id]
    show (bookingUpdateStatus db bid target none now).1 = db
    simp only [bookingUpdateStatus]
    rw [hmap]

/-- A booking row on spot 1 already cancelled by its driver. -/
def bkCancelled : Booking :=
  { booking_id := 1, spot_id := 1, driver_id := 5, homeowner_id := 7,
    start_time := 10, end_time := 12, total_price := 100,
    booking_status := .cancelledByDriver, payment_status := .pending,
    stripe_payment_intent_id := none, driver_check_in_time := none,
    driver_check_out_time := none, homeowner_confirm_time := none,
    homeowner_reject_time := none }

/-- A database holding one booking cancelled by its driver. -/
def dbCancelled : Db :=
  { spots := [{ spot_id := 1, homeowner_id := 7, status := .active, is_available := true }],
    bookings := [bkCancelled],
    availability := [], transactions := [], users := [],
    nextBookingId := 2, nextSlotId := 1, nextTxId := 1 }

/-- Witness for the amended C5: the driver re-cancelling their already
cancelled booking is answered 200 and the state is unchanged. -/
theorem claim5_witness :
    ((updateBookingStatus dbCancelled uDriver 1 .cancelledByDriver 50).1 = 200 ↔
      ((uDriver.user_type = .admin ∧ BookingStatus.cancelledByDriver = .completed) ∨
        (BookingStatus.cancelledByDriver =
            (dbCancelled.bookings.getD 0 bkDefault).booking_status ∧
          (((dbCancelled.bookings.getD 0 bkDefault).booking_status = .cancelledByDriver ∧
              (((dbCancelled.bookings.getD 0 bkDefault).driver_id = uDriver.user_id ∧
                  uDriver.user_type = .driver) ∨ uDriver.user_type = .admin)) ∨
            ((dbCancelled.bookings.getD 0 bkDefault).booking_status = .cancelledByHomeowner ∧
              (((dbCancelled.bookings.getD 0 bkDefault).homeowner_id = uDriver.user_id ∧
                  uDriver.user_type = .homeowner) ∨ uDriver.user_type = .admin)))))) ∧
    ((updateBookingStatus dbCancelled uDriver 1 .cancelledByDriver 50).1 ≠ 200 →
      (updateBookingStatus dbCancelled uDriver 1 .cancelledByDriver 50).2 = dbCancelled ∧
      ((updateBookingStatus dbCancelled uDriver 1 .cancelledByDriver 50).1 = 400 ∨
        (updateBookingStatus dbCancelled uDriver 1 .cancelledByDriver 50).1 = 403)) ∧
    ((updateBookingStatus dbCancelled uDriver 1 .cancelledByDriver 50).1 = 200 →
      BookingStatus.cancelledByDriver =
        (dbCancelled.bookings.getD 0 bkDefault).booking_status →
      (updateBookingStatus dbCancelled uDriver 1 .cancelledByDriver 50).2 = dbCancelled) :=
  claim5_terminal_transitions dbCancelled uDriver 1 .cancelledByDriver 50
    (dbCancelled.bookings.getD 0 bkDefault) (by decide) (by decide) (by decide)

theorem applyPayFields_booking_status (b : Booking) (f : PayFields) :
    (applyPayFields b f).booking_status = b.booking_status := by
  cases hf : f.stripe_payment_intent_id <;> simp [applyPayFields, hf]

/-- The UPDATE built from an object-shaped updateFields leaves the
booking_status column of every row alone. -/
theorem payMap_status (db : Db) (bid : Nat) (f : PayFields) :
    ((db.bookings.map fun b =>
      if b.booking_id = bid then applyPayFields b f else b).map
        Booking.booking_status) = db.bookings.map Booking.booking_status := by
  rw [List.map_map]
  apply List.map_congr_left
  intro x hx
  by_cases hid : x.booking_id = bid <;>
    simp [Function.comp, hid, applyPayFields_booking_status]

/-- The Stripe environment of the concrete scenario: one intent, succeeded. -/
def stripeSucceeded : String → Option String :=
  fun s => if s = "pi_1" then some "succeeded" else none

/-- A pending, unpaid booking row on spot 1. -/
def bkPending : Booking :=
  { booking_id := 1, spot_id := 1, driver_id := 5, homeowner_id := 7,
    start_time := 10, end_time := 12, total_price := 100,
    booking_status := .pending, payment_status := .pending,
    stripe_payment_intent_id := none, driver_check_in_time := none,
    driver_check_out_time := none, homeowner_confirm_time := none,
    homeowner_reject_time := none }

/-- A database holding one pending, unpaid booking. -/
def dbPendingBooking : Db :=
  { spots := [{ spot_id := 1, homeowner_id := 7, status := .active, is_available := true }],
    bookings := [bkPending],
    availability := [], transactions := [], users := [],
    nextBookingId := 2, nextSlotId := 1, nextTxId := 1 }

/-- C6: no operation on the payment path changes any booking_status:
processStripePayment and the payment-status controller write only
payment_status and stripe_payment_intent_id; createTransaction inserts the
transaction row and then, on the auto-confirm branch, calls
Booking.updatePaymentStatus with the bare string "paid", which produces the
malformed UPDATE and an error before the confirm line runs; transaction
status updates touch only the transactions table.  In particular a
succeeded payment for a pending booking sets payment_status to paid and
leaves booking_status pending. -/
theorem claim6_payment_never_changes_booking_status :
    (∀ (stripeOf : String → Option String) (db : Db) (bid : Nat) (pid : String)
        (ps : PaymentStatus),
      (processStripePayment stripeOf db bid pid ps).2.bookings.map
          Booking.booking_status = db.bookings.map Booking.booking_status) ∧
    (∀ (db : Db) (u : AuthUser) (bid : Nat) (ps : PaymentStatus)
        (intent : Option (Option String)),
      (updatePaymentStatus db u bid ps intent).2.bookings.map
          Booking.booking_status = db.bookings.map Booking.booking_status) ∧
    (∀ (db : Db) (bookingId payerId receiverId : Option Nat) (tt : TxType)
        (st : TxStatus) (now : Nat),
      (createTransaction db bookingId payerId receiverId tt st now).2.bookings.map
          Booking.booking_status = db.bookings.map Booking.booking_status) ∧
    (∀ (db : Db) (u : AuthUser) (txId : Nat) (st : TxStatus),
      (updateTransactionStatus db u txId st).2.bookings.map
          Booking.booking_status = db.bookings.map Booking.booking_status) ∧
    ((processStripePayment stripeSucceeded dbPendingBooking 1 "pi_1" .paid).1 = 200 ∧
      ((processStripePayment stripeSucceeded dbPendingBooking 1 "pi_1" .paid).2.bookings.getD 0
        bkDefault).booking_status = .pending ∧
      ((processStripePayment stripeSucceeded dbPendingBooking 1 "pi_1" .paid).2.bookings.getD 0
        bkDefault).payment_status = .paid) := by
  refine ⟨?_, ?_, ?_, ?_, by decide⟩
  · intro f db bid pid ps
    unfold processStripePayment
    split_ifs with h1
    · rfl
    · cases hf : f pid with
      | none => rfl
      | some st =>
        dsimp only
        split_ifs with h2
        · rfl
        · simp only [bookingUpdatePaymentStatus]
          split_ifs with h3 <;> exact payMap_status db bid _
  · intro db u bid ps intent
    unfold updatePaymentStatus
    cases hfind : db.bookings.find? (fun b => decide (b.booking_id = bid)) with
    | none => rfl
    | some bk =>
      dsimp only
      split_ifs with h1
      · rfl
      · simp only [bookingUpdatePaymentStatus]
        split_ifs with h2 <;> exact payMap_status db bid _
  · intro db obid opay orec tt st now
    unfold createTransaction
    split_ifs with h1 h2 h3 h4
    · rfl
    · rfl
    · rfl
    · cases obid with
      | none => rfl
      | some b =>
        dsimp only
        cases hf : db.bookings.find? (fun bk => decide (bk.booking_id = b)) with
        | none => rfl
        | some bk =>
          dsimp only
          split_ifs with h5 h6
          · rfl
          · rfl
          · rfl
    · cases obid with
      | none => rfl
      | some b => rfl
  · intro db u txId st
    unfold updateTransactionStatus
    split_ifs with h1 h2
    · rfl
    · cases hf : db.transactions.find? (fun t => decide (t.transaction_id = txId)) with
      | none => rfl
      | some t => rfl
    · cases hf : db.transactions.find? (fun t => decide (t.transaction_id = txId)) with
      | none => rfl
      | some t => rfl

/-- The state reached when two concurrent requests for [10, 12) on spot 1
both run the overlap SELECT against db0 (each sees no rows) and then both
run the INSERT: the interleaving check-check-insert-insert that the two
separate pool.query calls of Booking.create permit. -/
def dbRaced : Db :=
  bookingInsert (bookingInsert db0 1 5 7 10 12 100 none) 1 6 7 10 12 100 none

/-- C7 fails on the code: the overlap SELECT and the INSERT of
Booking.create are two separate pool.query round trips with no transaction,
lock or unique constraint, so the schedule in which both requests check
before either inserts passes both checks (first two conjuncts: the check on
the shared initial state reports no conflict, while after one insert it
would) and ends in a state holding two pending bookings on spot 1 that both
contain the instant 11 — the invariant of C1 is violated by this
interleaving. -/
theorem claim7_check_insert_race :
    bookingCreateCheck db0 1 10 12 = false ∧
    bookingCreateCheck (bookingInsert db0 1 5 7 10 12 100 none) 1 10 12 = true ∧
    dbRaced.bookings.length = 2 ∧
    (dbRaced.bookings.getD 0 bkDefault).spot_id =
      (dbRaced.bookings.getD 1 bkDefault).spot_id ∧
    (dbRaced.bookings.getD 0 bkDefault).booking_id ≠
      (dbRaced.bookings.getD 1 bkDefault).booking_id ∧
    isTerminal (dbRaced.bookings.getD 0 bkDefault).booking_status = false ∧
    isTerminal (dbRaced.bookings.getD 1 bkDefault).booking_status = false ∧
    bookingContains (dbRaced.bookings.getD 0 bkDefault) 11 = true ∧
    bookingContains (dbRaced.bookings.getD 1 bkDefault) 11 = true := by
  decide

/-- For a genuine slot interval (positive length), the three-clause slot
condition collapses to the single strict pair. -/
theorem slotSqlConflict_true_iff (es ee cs ce : Nat) (h : es < ee) :
    slotSqlConflict es ee cs ce = true ↔ (es < ce ∧ cs < ee) := by
  simp only [slotSqlConflict, Bool.or_eq_true, Bool.and_eq_true,
    decide_eq_true_eq]
  omega

/-- The overlap test of the declare path reports a conflict iff some
unbooked slot of the spot strictly overlaps the candidate, provided the
slots of the spot are genuine intervals. -/
theorem isTimeRangeAvailable_false_iff (db : Db) (spotId st en : Nat)
    (hvalid : ∀ sl ∈ db.availability, sl.spot_id = spotId →
      sl.start_time < sl.end_time) :
    isTimeRangeAvailable db spotId st en none = false ↔
      ∃ sl ∈ db.availability, sl.spot_id = spotId ∧ sl.is_booked = false ∧
        sl.start_time < en ∧ st < sl.end_time := by
  unfold isTimeRangeAvailable
  rw [Bool.not_eq_false', List.any_eq_true]
  constructor
  · rintro ⟨sl, hsl, hp⟩
    simp only [Bool.and_eq_true, decide_eq_true_eq, Bool.not_eq_true'] at hp
    obtain ⟨⟨⟨hspot, hconf⟩, hbooked⟩, -⟩ := hp
    have hov := (slotSqlConflict_true_iff _ _ _ _ (hvalid sl hsl hspot)).mp hconf
    exact ⟨sl, hsl, hspot, hbooked, hov.1, hov.2⟩
  · rintro ⟨sl, hsl, hspot, hbooked, h1, h2⟩
    refine ⟨sl, hsl, ?_⟩
    simp only [Bool.and_eq_true, decide_eq_true_eq, Bool.not_eq_true']
    exact ⟨⟨⟨hspot,
      (slotSqlConflict_true_iff _ _ _ _ (hvalid sl hsl hspot)).mpr ⟨h1, h2⟩⟩,
      hbooked⟩, trivial⟩

/-- The homeowner account owning spot 1 in the concrete scenarios. -/
def uHomeowner : AuthUser := { user_id := 7, user_type := .homeowner }

/-- An unbooked declared slot [540, 720) on spot 1. -/
def slotMorning : Slot :=
  { availability_id := 1, spot_id := 1, start_time := 540, end_time := 720,
    is_booked := false }

/-- db0 with one unbooked declared slot [540, 720) on spot 1. -/
def dbSlot : Db :=
  { db0 with availability := [slotMorning], nextSlotId := 2 }

/-- C8: once the request passes validation, spot lookup and ownership,
declaring availability fails 409 exactly when the candidate range strictly
overlaps some unbooked slot of the spot (booked slots are excluded by the
is_booked = FALSE filter); a request with end <= start or end <= now fails
400; and declaring [09:00, 12:00) then [11:00, 13:00) on the same spot has
the second call fail 409 (times in minutes). -/
theorem claim8_declare_conflict_iff (db : Db) (u : AuthUser)
    (spotId st en now : Nat) (sp : ParkingSpot)
    (hst : st < en) (hnow : now < en)
    (hsp : db.spots.find? (fun s0 => decide (s0.spot_id = spotId)) = some sp)
    (hauth : sp.homeowner_id = u.user_id ∨ u.user_type = .admin)
    (hvalid : ∀ sl ∈ db.availability, sl.spot_id = spotId →
      sl.start_time < sl.end_time) :
    ((createSpotAvailability db u spotId st en now).1 = 409 ↔
      ∃ sl ∈ db.availability, sl.spot_id = spotId ∧ sl.is_booked = false ∧
        sl.start_time < en ∧ st < sl.end_time) ∧
    (∀ st2 en2 nw, en2 ≤ st2 ∨ en2 ≤ nw →
      (createSpotAvailability db u spotId st2 en2 nw).1 = 400) ∧
    (createSpotAvailability (createSpotAvailability db0 uHomeowner 1 540 720 0).2
      uHomeowner 1 660 780 0).1 = 409 := by
  refine ⟨?_, ?_, by decide⟩
  · unfold createSpotAvailability
    rw [if_neg (by omega : ¬ en ≤ st), if_neg (by omega : ¬ en ≤ now), hsp]
    dsimp only
    rw [if_neg (by tauto : ¬(sp.homeowner_id ≠ u.user_id ∧ u.user_type ≠ .admin))]
    by_cases hav : isTimeRangeAvailable db spotId st en none = false
    · rw [if_pos (by simp [hav])]
      exact ⟨fun _ => (isTimeRangeAvailable_false_iff db spotId st en hvalid).mp hav,
        fun _ => rfl⟩
    · have hav2 : isTimeRangeAvailable db spotId st en none = true := by
        cases hb : isTimeRangeAvailable db spotId st en none
        · exact absurd hb hav
        · rfl
      rw [if_neg (by simp [hav2])]
      constructor
      · intro h409
        simp at h409
      · intro hex
        have hfalse := (isTimeRangeAvailable_false_iff db spotId st en hvalid).mpr hex
        rw [hav2] at hfalse
        cases hfalse
  · intro st2 en2 nw hbad
    unfold createSpotAvailability
    by_cases h1 : en2 ≤ st2
    · rw [if_pos h1]
    · rw [if_neg h1]
      rcases hbad with hbad | hbad
      · exact absurd hbad h1
      · rw [if_pos hbad]

/-- Witness for C8 on dbSlot: declaring [11:00, 13:00) against the existing
unbooked slot [09:00, 12:00) is a 409 conflict. -/
theorem claim8_witness :
    ((createSpotAvailability dbSlot uHomeowner 1 660 780 0).1 = 409 ↔
      ∃ sl ∈ dbSlot.availability, sl.spot_id = 1 ∧ sl.is_booked = false ∧
        sl.start_time < 780 ∧ 660 < sl.end_time) ∧
    (∀ st2 en2 nw, en2 ≤ st2 ∨ en2 ≤ nw →
      (createSpotAvailability dbSlot uHomeowner 1 st2 en2 nw).1 = 400) ∧
    (createSpotAvailability (createSpotAvailability db0 uHomeowner 1 540 720 0).2
      uHomeowner 1 660 780 0).1 = 409 :=
  claim8_declare_conflict_iff dbSlot uHomeowner 1 660 780 0
    { spot_id := 1, homeowner_id := 7, status := .active, is_available := true }
    (by decide) (by decide) (by decide) (by decide) (by decide)

theorem applyPayFields_booking_id (b : Booking) (f : PayFields) :
    (applyPayFields b f).booking_id = b.booking_id := by
  cases hf : f.stripe_payment_intent_id <;> simp [applyPayFields, hf]

theorem applyPayFields_idem (b : Booking) (f : PayFields) :
    applyPayFields (applyPayFields b f) f = applyPayFields b f := by
  cases hf : f.stripe_payment_intent_id <;> simp [applyPayFields, hf]

/-- Applying the same object-shaped UPDATE twice yields the table of
applying it once: the SET clauses write constants. -/
theorem payUpdate_idem (db : Db) (bid : Nat) (fl : PayFields) :
    ((db.bookings.map fun b =>
        if b.booking_id = bid then applyPayFields b fl else b).map fun b =>
        if b.booking_id = bid then applyPayFields b fl else b) =
      db.bookings.map fun b =>
        if b.booking_id = bid then applyPayFields b fl else b := by
  rw [List.map_map]
  apply List.map_congr_left
  intro x hx
  by_cases hid : x.booking_id = bid
  · simp [Function.comp, hid, applyPayFields_booking_id, applyPayFields_idem]
  · simp [Function.comp, hid]

/-- The UPDATE preserves primary keys, so the matched-row test is stable. -/
theorem payUpdate_any (db : Db) (bid : Nat) (fl : PayFields) :
    ((db.bookings.map fun b =>
        if b.booking_id = bid then applyPayFields b fl else b).any fun b =>
        decide (b.booking_id = bid)) =
      (db.bookings.any fun b => decide (b.booking_id = bid)) := by
  rw [List.any_map]
  refine Bool.eq_iff_iff.mpr ?_
  rw [List.any_eq_true, List.any_eq_true]
  constructor
  · rintro ⟨x, hx, hp⟩
    refine ⟨x, hx, ?_⟩
    simp only [Function.comp] at hp
    by_cases hid : x.booking_id = bid
    · simp [hid]
    · simp [hid] at hp
  · rintro ⟨x, hx, hp⟩
    refine ⟨x, hx, ?_⟩
    have hid := of_decide_eq_true hp
    simp [Function.comp, hid, applyPayFields_booking_id]

/-- C9: replaying the payment-outcome reconciliation with the same
(bookingId, gatewayReferenceId, outcome) triple is a no-op: the second call
returns the same status code and leaves the state exactly as after the
first call, so payment_status, the stored gateway reference and all store
effects are those of a single call. -/
theorem claim9_reconciliation_idempotent (f : String → Option String)
    (db : Db) (bid : Nat) (pid : String) (ps : PaymentStatus) :
    processStripePayment f (processStripePayment f db bid pid ps).2 bid pid ps =
      processStripePayment f db bid pid ps := by
  unfold processStripePayment
  by_cases h1 : bid = 0 ∨ pid = ""
  · simp only [if_pos h1]
  · simp only [if_neg h1]
    cases hf : f pid with
    | none => rfl
    | some st =>
      dsimp only
      by_cases h2 : st ≠ "succeeded"
      · simp only [if_pos h2]
      · simp only [if_neg h2]
        simp only [bookingUpdatePaymentStatus]
        by_cases hany : (db.bookings.any fun b => decide (b.booking_id = bid)) = true
        · simp only [hany, if_true, payUpdate_any, payUpdate_idem]
        · simp only [hany, if_false, Bool.false_eq_true, payUpdate_any, payUpdate_idem]

/-- Field-level description of the timestamp columns after
Booking.updateStatus: the named column (when present) reads NOW(), the other
three keep their values. -/
def timeFieldSpec (b b2 : Booking) (tf : Option TimeField) (now : Nat) : Prop :=
  match tf with
  | none =>
    b2.driver_check_in_time = b.driver_check_in_time ∧
    b2.driver_check_out_time = b.driver_check_out_time ∧
    b2.homeowner_confirm_time = b.homeowner_confirm_time ∧
    b2.homeowner_reject_time = b.homeowner_reject_time
  | some .driverCheckIn =>
    b2.driver_check_in_time = some now ∧
    b2.driver_check_out_time = b.driver_check_out_time ∧
    b2.homeowner_confirm_time = b.homeowner_confirm_time ∧
    b2.homeowner_reject_time = b.homeowner_reject_time
  | some .driverCheckOut =>
    b2.driver_check_in_time = b.driver_check_in_time ∧
    b2.driver_check_out_time = some now ∧
    b2.homeowner_confirm_time = b.homeowner_confirm_time ∧
    b2.homeowner_reject_time = b.homeowner_reject_time
  | some .homeownerConfirm =>
    b2.driver_check_in_time = b.driver_check_in_time ∧
    b2.driver_check_out_time = b.driver_check_out_time ∧
    b2.homeowner_confirm_time = some now ∧
    b2.homeowner_reject_time = b.homeowner_reject_time
  | some .homeownerReject =>
    b2.driver_check_in_time = b.driver_check_in_time ∧
    b2.driver_check_out_time = b.driver_check_out_time ∧
    b2.homeowner_confirm_time = b.homeowner_confirm_time ∧
    b2.homeowner_reject_time = some now

/-- C10: Booking.updateStatus touches no table other than bookings and no
row other than those carrying the given booking_id; on a matching row it
writes booking_status and, per timeFieldToUpdate, exactly one lifecycle
timestamp, leaving ids, times, price, payment fields and the other
timestamps as they were. -/
theorem claim10_update_status_frame (db : Db) (bid : Nat)
    (target : BookingStatus) (tf : Option TimeField) (now : Nat) (i : Nat)
    (hi : i < db.bookings.length) :
    (bookingUpdateStatus db bid target tf now).1.spots = db.spots ∧
    (bookingUpdateStatus db bid target tf now).1.availability = db.availability ∧
    (bookingUpdateStatus db bid target tf now).1.transactions = db.transactions ∧
    (bookingUpdateStatus db bid target tf now).1.nextBookingId = db.nextBookingId ∧
    (bookingUpdateStatus db bid target tf now).1.bookings.length =
      db.bookings.length ∧
    ((db.bookings.getD i bkDefault).booking_id ≠ bid →
      (bookingUpdateStatus db bid target tf now).1.bookings.getD i bkDefault =
        db.bookings.getD i bkDefault) ∧
    ((db.bookings.getD i bkDefault).booking_id = bid →
      ((bookingUpdateStatus db bid target tf now).1.bookings.getD i
          bkDefault).booking_id = (db.bookings.getD i bkDefault).booking_id ∧
      ((bookingUpdateStatus db bid target tf now).1.bookings.getD i
          bkDefault).spot_id = (db.bookings.getD i bkDefault).spot_id ∧
      ((bookingUpdateStatus db bid target tf now).1.bookings.getD i
          bkDefault).driver_id = (db.bookings.getD i bkDefault).driver_id ∧
      ((bookingUpdateStatus db bid target tf now).1.bookings.getD i
          bkDefault).homeowner_id = (db.bookings.getD i bkDefault).homeowner_id ∧
      ((bookingUpdateStatus db bid target tf now).1.bookings.getD i
          bkDefault).start_time = (db.bookings.getD i bkDefault).start_time ∧
      ((bookingUpdateStatus db bid target tf now).1.bookings.getD i
          bkDefault).end_time = (db.bookings.getD i bkDefault).end_time ∧
      ((bookingUpdateStatus db bid target tf now).1.bookings.getD i
          bkDefault).total_price = (db.bookings.getD i bkDefault).total_price ∧
      ((bookingUpdateStatus db bid target tf now).1.bookings.getD i
          bkDefault).payment_status = (db.bookings.getD i bkDefault).payment_status ∧
      ((bookingUpdateStatus db bid target tf now).1.bookings.getD i
          bkDefault).stripe_payment_intent_id =
        (db.bookings.getD i bkDefault).stripe_payment_intent_id ∧
      ((bookingUpdateStatus db bid target tf now).1.bookings.getD i
          bkDefault).booking_status = target ∧
      timeFieldSpec (db.bookings.getD i bkDefault)
        ((bookingUpdateStatus db bid target tf now).1.bookings.getD i bkDefault)
        tf now) := by
  have hlen : (bookingUpdateStatus db bid target tf now).1.bookings.length =
      db.bookings.length := by
    simp [bookingUpdateStatus]
  have hi2 : i < (bookingUpdateStatus db bid target tf now).1.bookings.length := by
    rw [hlen]; exact hi
  have hget : (bookingUpdateStatus db bid target tf now).1.bookings.getD i bkDefault =
      (fun b => if b.booking_id = bid then
        applyTimeField { b with booking_status := target } tf now else b)
        (db.bookings.getD i bkDefault) := by
    rw [getD_eq_getElem_of_lt _ _ hi2, getD_eq_getElem_of_lt _ _ hi]
    simp [bookingUpdateStatus]
  refine ⟨rfl, rfl, rfl, rfl, hlen, ?_, ?_⟩
  · intro hne
    rw [hget]
    exact if_neg hne
  · intro heq
    have hif : (bookingUpdateStatus db bid target tf now).1.bookings.getD i bkDefault =
        applyTimeField
          { db.bookings.getD i bkDefault with booking_status := target } tf now := by
      rw [hget]
      exact if_pos heq
    rw [hif]
    cases tf with
    | none => exact ⟨rfl, rfl, rfl, rfl, rfl, rfl, rfl, rfl, rfl, rfl,
        rfl, rfl, rfl, rfl⟩
    | some f =>
      cases f <;>
        exact ⟨rfl, rfl, rfl, rfl, rfl, rfl, rfl, rfl, rfl, rfl,
          rfl, rfl, rfl, rfl⟩

/-- Witness for C10 on dbPendingBooking: checking in booking 1 sets
booking_status and driver_check_in_time only, at row 0, and touches no
other table. -/
theorem claim10_witness :
    (bookingUpdateStatus dbPendingBooking 1 .checkedIn (some .driverCheckIn)
      99).1.spots = dbPendingBooking.spots ∧
    (bookingUpdateStatus dbPendingBooking 1 .checkedIn (some .driverCheckIn)
      99).1.availability = dbPendingBooking.availability ∧
    (bookingUpdateStatus dbPendingBooking 1 .checkedIn (some .driverCheckIn)
      99).1.transactions = dbPendingBooking.transactions ∧
    (bookingUpdateStatus dbPendingBooking 1 .checkedIn (some .driverCheckIn)
      99).1.nextBookingId = dbPendingBooking.nextBookingId ∧
    (bookingUpdateStatus dbPendingBooking 1 .checkedIn (some .driverCheckIn)
      99).1.bookings.length = dbPendingBooking.bookings.length ∧
    ((dbPendingBooking.bookings.getD 0 bkDefault).booking_id ≠ 1 →
      (bookingUpdateStatus dbPendingBooking 1 .checkedIn (some .driverCheckIn)
        99).1.bookings.getD 0 bkDefault = dbPendingBooking.bookings.getD 0 bkDefault) ∧
    ((dbPendingBooking.bookings.getD 0 bkDefault).booking_id = 1 →
      ((bookingUpdateStatus dbPendingBooking 1 .checkedIn (some .driverCheckIn)
          99).1.bookings.getD 0 bkDefault).booking_id =
        (dbPendingBooking.bookings.getD 0 bkDefault).booking_id ∧
      ((bookingUpdateStatus dbPendingBooking 1 .checkedIn (some .driverCheckIn)
          99).1.bookings.getD 0 bkDefault).spot_id =
        (dbPendingBooking.bookings.getD 0 bkDefault).spot_id ∧
      ((bookingUpdateStatus dbPendingBooking 1 .checkedIn (some .driverCheckIn)
          99).1.bookings.getD 0 bkDefault).driver_id =
        (dbPendingBooking.bookings.getD 0 bkDefault).driver_id ∧
      ((bookingUpdateStatus dbPendingBooking 1 .checkedIn (some .driverCheckIn)
          99).1.bookings.getD 0 bkDefault).homeowner_id =
        (dbPendingBooking.bookings.getD 0 bkDefault).homeowner_id ∧
      ((bookingUpdateStatus dbPendingBooking 1 .checkedIn (some .driverCheckIn)
          99).1.bookings.getD 0 bkDefault).start_time =
        (dbPendingBooking.bookings.getD 0 bkDefault).start_time ∧
      ((bookingUpdateStatus dbPendingBooking 1 .checkedIn (some .driverCheckIn)
          99).1.bookings.getD 0 bkDefault).end_time =
        (dbPendingBooking.bookings.getD 0 bkDefault).end_time ∧
      ((bookingUpdateStatus dbPendingBooking 1 .checkedIn (some .driverCheckIn)
          99).1.bookings.getD 0 bkDefault).total_price =
        (dbPendingBooking.bookings.getD 0 bkDefault).total_price ∧
      ((bookingUpdateStatus dbPendingBooking 1 .checkedIn (some .driverCheckIn)
          99).1.bookings.getD 0 bkDefault).payment_status =
        (dbPendingBooking.bookings.getD 0 bkDefault).payment_status ∧
      ((bookingUpdateStatus dbPendingBooking 1 .checkedIn (some .driverCheckIn)
          99).1.bookings.getD 0 bkDefault).stripe_payment_intent_id =
        (dbPendingBooking.bookings.getD 0 bkDefault).stripe_payment_intent_id ∧
      ((bookingUpdateStatus dbPendingBooking 1 .checkedIn (some .driverCheckIn)
          99).1.bookings.getD 0 bkDefault).booking_status = .checkedIn ∧
      timeFieldSpec (dbPendingBooking.bookings.getD 0 bkDefault)
        ((bookingUpdateStatus dbPendingBooking 1 .checkedIn (some .driverCheckIn)
          99).1.bookings.getD 0 bkDefault) (some .driverCheckIn) 99) :=
  claim10_update_status_frame dbPendingBooking 1 .checkedIn (some .driverCheckIn)
    99 0 (by decide)

end Parking
